import Mathlib

/-!
Shallow embedding of `processor.py` from the `aec_poc` repository.

The repository's core (`PDFExtractor`) loads optional few-shot examples from a
JSON file, assembles a single content list for a hosted generative-model API
call, and returns the response's schema-parsed record.  External collaborators
are modelled explicitly:

* the filesystem is an association list from paths to byte contents;
* Python's `json` module is a pair of abstract functions (`loads`, which may
  fail, modelling `json.JSONDecodeError`, and `dumpsIndent2`, modelling
  `json.dumps(x, indent=2)`);
* the remote API (`client.models.generate_content`) is an abstract function
  from the assembled content list to either a Python-level exception or a
  response whose body may or may not be valid JSON; the client's `parsed`
  attribute is the schema validation of that body against `VehicleTitle`
  (yielding `none` when the body is absent or fails validation, as the
  `google.genai` client does);
* Python exceptions are values of `PyError`, and a function that can raise
  returns `Except PyError _`.

Machine-level bytes are `List Nat`; no arithmetic is performed on them.
-/

namespace AecPoc

/-- Raw file / PDF contents as a byte list. -/
abbrev Bytes := List Nat

/-- JSON values as produced by Python's `json.load` (numbers restricted to
integers, which covers every value the claims touch). -/
inductive Json where
  | null : Json
  | bool (b : Bool) : Json
  | num (n : Int) : Json
  | str (s : String) : Json
  | arr (elems : List Json) : Json
  | obj (fields : List (String × Json)) : Json

/-- Lookup of a key in a decoded JSON object, modelling Python dict indexing
(`example["pdf_path"]`); decoded dicts have unique keys, so first-match lookup
is faithful. -/
def objGet : List (String × Json) → String → Option Json
  | [], _ => none
  | (k, v) :: rest, key => if k = key then some v else objGet rest key

/-- Python-level exceptions that the code in `processor.py` can raise or
propagate.  `extractionError` is modelled from the spec: the spec names an
`ExtractionError` wrapper type, but `processor.py` defines no such class; the
constructor exists only so that the spec's wrapping claim can be stated and
compared against the code. -/
inductive PyError where
  | jsonDecodeError : PyError
  | typeError : PyError
  | keyError (key : String) : PyError
  | fileNotFound (path : String) : PyError
  | apiError (msg : String) : PyError
  | extractionError (cause : PyError) : PyError
deriving DecidableEq

/-- The filesystem visible to the service: paths mapped to byte contents. -/
abbrev Fs := List (String × Bytes)

/-- Path lookup; `none` models a path for which `os.path.exists` is false /
`open` raises `FileNotFoundError`. -/
def fsLookup : Fs → String → Option Bytes
  | [], _ => none
  | (k, v) :: rest, p => if k = p then some v else fsLookup rest p

/-- Creating (or overwriting) a file, as `temp_file.write` does. -/
def fsInsert (fs : Fs) (p : String) (v : Bytes) : Fs := (p, v) :: fs

/-- Deleting a file, as `os.unlink` does: every entry at that path is
removed. -/
def fsErase : Fs → String → Fs
  | [], _ => []
  | (k, v) :: rest, p => if k = p then fsErase rest p else (k, v) :: fsErase rest p

/-- One element of the `contents` list handed to the API: either a plain text
prompt segment or a `types.Part.from_bytes(data=..., mime_type=...)` part. -/
inductive Segment where
  | text (s : String) : Segment
  | filePart (data : Bytes) (mimeType : String) : Segment
deriving DecidableEq

/-- Python's `json` module, kept abstract: `loads` decodes bytes (failing with
`json.JSONDecodeError`, modelled as `none`), `dumpsIndent2` serializes a value
the way `json.dumps(x, indent=2)` does. -/
structure PyJson where
  loads : Bytes → Option Json
  dumpsIndent2 : Json → String

/-- The nine-field record of `class VehicleTitle(BaseModel)` in
`processor.py`, lines 16-25. -/
structure VehicleTitle where
  title_state : String
  title_type : String
  vehicle_vin : String
  vehicle_year : Int
  vehicle_make : String
  vehicle_model : String
  title_number : String
  vehicle_registered_owner : String
  first_reassignment : String
deriving DecidableEq

/-- Pydantic validation of a string field: a JSON string is accepted, nothing
else is coerced. -/
def asStr : Json → Option String
  | .str s => some s
  | _ => none

/-- Pydantic validation of the `int` field `vehicle_year`: a JSON integer is
accepted and a numeric JSON string is coerced. -/
def asInt : Json → Option Int
  | .num n => some n
  | .str s => s.toInt?
  | _ => none

/-- Validation of a decoded response body against the `VehicleTitle` schema
(all nine fields required; extra keys ignored), as the client performs when
`response_schema` is set. -/
def parseVehicleTitle (j : Json) : Option VehicleTitle :=
  match j with
  | .obj fields => do
      let ts ← (objGet fields "title_state").bind asStr
      let tt ← (objGet fields "title_type").bind asStr
      let vin ← (objGet fields "vehicle_vin").bind asStr
      let yr ← (objGet fields "vehicle_year").bind asInt
      let vmake ← (objGet fields "vehicle_make").bind asStr
      let vmodel ← (objGet fields "vehicle_model").bind asStr
      let tn ← (objGet fields "title_number").bind asStr
      let ro ← (objGet fields "vehicle_registered_owner").bind asStr
      let fr ← (objGet fields "first_reassignment").bind asStr
      pure ⟨ts, tt, vin, yr, vmake, vmodel, tn, ro, fr⟩
  | _ => none

/-- A successful `generate_content` response: its body is the response text
decoded as JSON, or `none` when the text is not valid JSON. -/
structure ApiResponse where
  body : Option Json

/-- The client's `response.parsed` attribute: the body validated against the
requested schema, `None` when the body is missing or fails validation. -/
def ApiResponse.parsed (r : ApiResponse) : Option VehicleTitle :=
  r.body.bind parseVehicleTitle

/-- The remote model call: from the assembled content list to an exception
(network / API failure) or a response. -/
abbrev Api := List Segment → Except PyError ApiResponse

/-- Configuration set at `PDFExtractor.__init__`: the few-shot examples path
(`None` when not supplied). -/
structure PDFExtractor where
  few_shot_examples_path : Option String

/-- The fixed `self.system_prompt` string from `__init__`. -/
def system_prompt : String :=
  "\n        You are an AI assistant that extracts auto vehicle information from PDFs.\n        Extract all the needed data.\n        Usually every data point except for first_reassignment is in the first page, while first_reassignment is in the second page.\n        first_reassignment is usually handwritten, so you have to be extra careful extracting that.\n        first_reassignment and vehicle_registered_owner contain business name and full address in most cases.\n        Be thorough and accurate in your extraction.\n        "

/-- The fixed `self.main_prompt` closing instruction from `__init__`. -/
def main_prompt : String :=
  "Please extract the vehicle information from the attached PDF document."

/-- The fixed per-example instruction string in `create_few_shot_examples`. -/
def few_shot_instruction : String := "Please extract data from the following PDF"

/-- The MIME tag applied to every PDF part. -/
def pdfMime : String := "application/pdf"

/-- The `for example in examples` loop body of `create_few_shot_examples`
(lines 67-82): per entry, index `pdf_path` (a missing key raises `KeyError`, a
non-object entry or non-string path raises `TypeError`), skip the entry when
the referenced PDF does not exist, otherwise append the instruction string,
the PDF bytes part and the indented-JSON expected output; indexing
`expected_output` happens only for entries whose PDF exists. -/
def processExamples (pj : PyJson) (fs : Fs) : List Json → Except PyError (List Segment)
  | [] => .ok []
  | e :: rest =>
    match e with
    | .obj fields =>
      match objGet fields "pdf_path" with
      | none => .error (.keyError "pdf_path")
      | some v =>
        match asStr v with
        | none => .error .typeError
        | some p =>
          match fsLookup fs p with
          | none => processExamples pj fs rest
          | some data =>
            match objGet fields "expected_output" with
            | none => .error (.keyError "expected_output")
            | some eo =>
              match processExamples pj fs rest with
              | .error err => .error err
              | .ok segs =>
                  .ok (Segment.text few_shot_instruction ::
                       Segment.filePart data pdfMime ::
                       Segment.text (pj.dumpsIndent2 eo) :: segs)
    | _ => .error .typeError

/-- `create_few_shot_examples` (lines 53-84): returns `[]` when no path is
configured or the file does not exist; otherwise decodes the file (a decode
failure propagates) and folds the loop over the decoded top-level value.
Iterating a non-list top level mirrors Python: an empty object or empty string
iterates zero times, any other non-list raises `TypeError` (either at the
`for` or when indexing the first element). -/
def create_few_shot_examples (pj : PyJson) (cfg : PDFExtractor) (fs : Fs) :
    Except PyError (List Segment) :=
  match cfg.few_shot_examples_path with
  | none => .ok []
  | some path =>
    match fsLookup fs path with
    | none => .ok []
    | some content =>
      match pj.loads content with
      | none => .error .jsonDecodeError
      | some (.arr examples) => processExamples pj fs examples
      | some (.obj fields) =>
          match fields with
          | [] => .ok []
          | _ => .error .typeError
      | some (.str s) => if s = "" then .ok [] else .error .typeError
      | some _ => .error .typeError

/-- The `contents=[...]` list assembled at lines 104-112: the system prompt,
the few-shot segments spliced in order, the target PDF part, and the closing
instruction. -/
def mkContents (few : List Segment) (pdf_data : Bytes) : List Segment :=
  Segment.text system_prompt ::
    few ++ [Segment.filePart pdf_data pdfMime, Segment.text main_prompt]

/-- `extract_data_from_pdf` (lines 86-122): build the few-shot context, issue
one API call, and return `response.parsed` unchecked.  The `except` clause
logs and bare-`raise`s, so every exception propagates unchanged; this is why
errors pass through this definition without any wrapping. -/
def extract_data_from_pdf (pj : PyJson) (api : Api) (cfg : PDFExtractor)
    (fs : Fs) (pdf_data : Bytes) : Except PyError (Option VehicleTitle) :=
  match create_few_shot_examples pj cfg fs with
  | .error e => .error e
  | .ok few =>
    match api (mkContents few pdf_data) with
    | .error e => .error e
    | .ok response => .ok response.parsed

/-- `extract_data_from_file` (lines 124-137): read the file fully (raising
when it cannot be opened), then delegate to `extract_data_from_pdf`. -/
def extract_data_from_file (pj : PyJson) (api : Api) (cfg : PDFExtractor)
    (fs : Fs) (pdf_file_path : String) : Except PyError (Option VehicleTitle) :=
  match fsLookup fs pdf_file_path with
  | none => .error (.fileNotFound pdf_file_path)
  | some pdf_data => extract_data_from_pdf pj api cfg fs pdf_data

/-- `extract_data_from_uploaded_file` (lines 139-158): write the uploaded
bytes to a temporary file (the fresh name chosen by
`tempfile.NamedTemporaryFile` is the `tempPath` argument), extract from that
file, and delete the temporary file in a `finally` block, so the deletion
happens on the success path and on the raising path alike.  Returns the
extraction outcome together with the final filesystem state. -/
def extract_data_from_uploaded_file (pj : PyJson) (api : Api)
    (cfg : PDFExtractor) (fs : Fs) (uploaded : Bytes) (tempPath : String) :
    Except PyError (Option VehicleTitle) × Fs :=
  let fs1 := fsInsert fs tempPath uploaded
  (extract_data_from_file pj api cfg fs1 tempPath, fsErase fs1 tempPath)

/-- The `pdf_path` of an example entry, when the entry is an object carrying a
string at that key. -/
def entryPdfPath (e : Json) : Option String :=
  match e with
  | .obj fields => (objGet fields "pdf_path").bind asStr
  | _ => none

/-- The `expected_output` of an example entry, when present. -/
def entryExpected (e : Json) : Option Json :=
  match e with
  | .obj fields => objGet fields "expected_output"
  | _ => none

/-- An example entry is well formed when it carries a string `pdf_path` and an
`expected_output`. -/
def wfEntry (e : Json) : Bool :=
  (entryPdfPath e).isSome && (entryExpected e).isSome

/-- Spec-side description of `BuildFewShotContext`: one
instruction + PDF-bytes + expected-output triple per entry whose PDF exists,
in file order, skipping entries whose PDF is missing. -/
def expectedTriples (pj : PyJson) (fs : Fs) : List Json → List Segment
  | [] => []
  | e :: rest =>
    match entryPdfPath e, entryExpected e with
    | some p, some eo =>
      match fsLookup fs p with
      | some data =>
          Segment.text few_shot_instruction :: Segment.filePart data pdfMime ::
            Segment.text (pj.dumpsIndent2 eo) :: expectedTriples pj fs rest
      | none => expectedTriples pj fs rest
    | _, _ => expectedTriples pj fs rest

/-- Number of entries whose referenced PDF exists. -/
def countValid (fs : Fs) (es : List Json) : Nat :=
  (es.filter (fun e =>
    match entryPdfPath e with
    | some p => (fsLookup fs p).isSome
    | none => false)).length

/-- The paths a few-shot example entry list references on the filesystem. -/
def examplePdfPaths (es : List Json) : List String := es.filterMap entryPdfPath

/-- Every path the few-shot loading of a given configuration consults on the
given filesystem: the examples file itself and, when it decodes to a list, the
`pdf_path` of each entry. -/
def referencedPaths (pj : PyJson) (cfg : PDFExtractor) (fs : Fs) : List String :=
  match cfg.few_shot_examples_path with
  | none => []
  | some fp =>
    fp :: (match fsLookup fs fp with
           | none => []
           | some content =>
             match pj.loads content with
             | some (.arr es) => examplePdfPaths es
             | _ => [])

lemma fsLookup_fsInsert (fs : Fs) (p : String) (v : Bytes) (q : String) :
    fsLookup (fsInsert fs p v) q = if p = q then some v else fsLookup fs q := by
  simp [fsInsert, fsLookup]

lemma fsLookup_fsErase (fs : Fs) (p q : String) :
    fsLookup (fsErase fs p) q = if q = p then none else fsLookup fs q := by
  induction fs with
  | nil => simp [fsErase, fsLookup]
  | cons kv rest ih =>
    obtain ⟨k, v⟩ := kv
    by_cases hk : k = p
    · rw [show fsErase ((k, v) :: rest) p = fsErase rest p by simp [fsErase, hk], ih]
      by_cases hq : q = p
      · simp [hq]
      · have hkq : ¬ k = q := by
          rw [hk]
          exact fun hc => hq hc.symm
        simp [fsLookup, hq, hkq]
    · rw [show fsErase ((k, v) :: rest) p = (k, v) :: fsErase rest p by
        simp [fsErase, hk]]
      by_cases hq : k = q
      · have hqp : ¬ q = p := by
          rw [← hq]
          exact hk
        simp [fsLookup, hq, hqp]
      · simp [fsLookup, hq, ih]

lemma mem_examplePdfPaths_cons (e : Json) (rest : List Json) (p : String)
    (hp : p ∈ examplePdfPaths rest) : p ∈ examplePdfPaths (e :: rest) := by
  simp only [examplePdfPaths, List.filterMap_cons] at hp ⊢
  cases entryPdfPath e
  · exact hp
  · exact List.mem_cons_of_mem _ hp

/-- Processing the entry list only consults the filesystem at the entries'
`pdf_path`s: two filesystems agreeing there process identically. -/
lemma processExamples_congr (pj : PyJson) (fs fs2 : Fs) (es : List Json)
    (h : ∀ p ∈ examplePdfPaths es, fsLookup fs2 p = fsLookup fs p) :
    processExamples pj fs2 es = processExamples pj fs es := by
  induction es with
  | nil => rfl
  | cons e rest ih =>
    have hrest : ∀ p ∈ examplePdfPaths rest, fsLookup fs2 p = fsLookup fs p :=
      fun p hp => h p (mem_examplePdfPaths_cons e rest p hp)
    have ihr := ih hrest
    cases e with
    | obj fields =>
      cases hv : objGet fields "pdf_path" with
      | none => simp [processExamples, hv]
      | some v =>
        cases hs : asStr v with
        | none => simp [processExamples, hv, hs]
        | some p =>
          have hmem : p ∈ examplePdfPaths (Json.obj fields :: rest) := by
            simp [examplePdfPaths, List.filterMap_cons, entryPdfPath, hv, hs]
          have hp := h p hmem
          simp [processExamples, hv, hs, hp, ihr]
    | null => simp [processExamples]
    | bool b => simp [processExamples]
    | num n => simp [processExamples]
    | str s => simp [processExamples]
    | arr xs => simp [processExamples]

/-- Writing a file at a path the few-shot loading never consults leaves the
few-shot context unchanged. -/
lemma create_few_shot_examples_fsInsert (pj : PyJson) (cfg : PDFExtractor)
    (fs : Fs) (tempPath : String) (v : Bytes)
    (h : tempPath ∉ referencedPaths pj cfg fs) :
    create_few_shot_examples pj cfg (fsInsert fs tempPath v) =
      create_few_shot_examples pj cfg fs := by
  cases hpath : cfg.few_shot_examples_path with
  | none => simp [create_few_shot_examples, hpath]
  | some fp =>
    have hfp : tempPath ≠ fp := by
      intro hcontra
      exact h (by simp [referencedPaths, hpath, hcontra])
    have hlf : fsLookup (fsInsert fs tempPath v) fp = fsLookup fs fp := by
      rw [fsLookup_fsInsert]
      simp [hfp]
    cases hfile : fsLookup fs fp with
    | none => simp [create_few_shot_examples, hpath, hlf, hfile]
    | some content =>
      cases hload : pj.loads content with
      | none => simp [create_few_shot_examples, hpath, hlf, hfile, hload]
      | some j =>
        cases j with
        | arr es =>
          have hpaths : ∀ p ∈ examplePdfPaths es,
              fsLookup (fsInsert fs tempPath v) p = fsLookup fs p := by
            intro p hp
            have hne : tempPath ≠ p := by
              intro hcontra
              subst hcontra
              exact h (by simp [referencedPaths, hpath, hfile, hload, hp])
            rw [fsLookup_fsInsert]
            simp [hne]
          simp only [create_few_shot_examples, hpath, hlf, hfile, hload]
          exact processExamples_congr pj fs (fsInsert fs tempPath v) es hpaths
        | null => simp [create_few_shot_examples, hpath, hlf, hfile, hload]
        | bool b => simp [create_few_shot_examples, hpath, hlf, hfile, hload]
        | num n => simp [create_few_shot_examples, hpath, hlf, hfile, hload]
        | str s => simp [create_few_shot_examples, hpath, hlf, hfile, hload]
        | obj fields => simp [create_few_shot_examples, hpath, hlf, hfile, hload]

/-- On a list of well-formed entries the loop never raises and produces
exactly the spec-side triples. -/
lemma processExamples_wf (pj : PyJson) (fs : Fs) (es : List Json)
    (h : ∀ e ∈ es, wfEntry e = true) :
    processExamples pj fs es = .ok (expectedTriples pj fs es) := by
  induction es with
  | nil => rfl
  | cons e rest ih =>
    have he : wfEntry e = true := h e (List.mem_cons_self e rest)
    have hrest := ih (fun x hx => h x (List.mem_cons_of_mem e hx))
    cases e with
    | obj fields =>
      simp only [wfEntry, Bool.and_eq_true, Option.isSome_iff_exists] at he
      obtain ⟨⟨p, hp⟩, ⟨eo, heo⟩⟩ := he
      simp only [entryPdfPath, Option.bind_eq_some] at hp
      obtain ⟨v, hv, hvs⟩ := hp
      simp only [entryExpected] at heo
      cases hl : fsLookup fs p with
      | none =>
        simp [processExamples, expectedTriples, hv, hvs, hl, hrest,
          entryPdfPath, entryExpected, heo]
      | some data =>
        simp [processExamples, expectedTriples, hv, hvs, hl, hrest,
          entryPdfPath, entryExpected, heo]
    | null => simp [wfEntry, entryPdfPath] at he
    | bool b => simp [wfEntry, entryPdfPath] at he
    | num n => simp [wfEntry, entryPdfPath] at he
    | str s => simp [wfEntry, entryPdfPath] at he
    | arr xs => simp [wfEntry, entryPdfPath] at he

/-- On well-formed entries the spec-side triples contain exactly three
segments per entry whose PDF exists. -/
lemma expectedTriples_length (pj : PyJson) (fs : Fs) (es : List Json)
    (h : ∀ e ∈ es, wfEntry e = true) :
    (expectedTriples pj fs es).length = 3 * countValid fs es := by
  induction es with
  | nil => rfl
  | cons e rest ih =>
    have he : wfEntry e = true := h e (List.mem_cons_self e rest)
    have ihr := ih (fun x hx => h x (List.mem_cons_of_mem e hx))
    simp only [wfEntry, Bool.and_eq_true, Option.isSome_iff_exists] at he
    obtain ⟨⟨p, hp⟩, ⟨eo, heo⟩⟩ := he
    cases hl : fsLookup fs p with
    | none =>
      have heq : expectedTriples pj fs (e :: rest) = expectedTriples pj fs rest := by
        simp [expectedTriples, hp, heo, hl]
      have hcnt : countValid fs (e :: rest) = countValid fs rest := by
        simp [countValid, List.filter_cons, hp, hl]
      rw [heq, hcnt, ihr]
    | some data =>
      have heq : expectedTriples pj fs (e :: rest) =
          Segment.text few_shot_instruction :: Segment.filePart data pdfMime ::
            Segment.text (pj.dumpsIndent2 eo) :: expectedTriples pj fs rest := by
        simp [expectedTriples, hp, heo, hl]
      have hcnt : countValid fs (e :: rest) = countValid fs rest + 1 := by
        simp [countValid, List.filter_cons, hp, hl]
      rw [heq, hcnt]
      simp only [List.length_cons]
      rw [ihr]
      omega

/-- A well-formed prefix of the entry list never masks a later error: the loop
propagates the first exception raised after it. -/
lemma processExamples_append_error (pj : PyJson) (fs : Fs) (pre rest : List Json)
    (err : PyError) (hwf : ∀ e ∈ pre, wfEntry e = true)
    (h : processExamples pj fs rest = .error err) :
    processExamples pj fs (pre ++ rest) = .error err := by
  induction pre with
  | nil => simpa using h
  | cons e pre2 ih =>
    have he : wfEntry e = true := hwf e (List.mem_cons_self e pre2)
    have ihr := ih (fun x hx => hwf x (List.mem_cons_of_mem e hx))
    cases e with
    | obj fields =>
      simp only [wfEntry, Bool.and_eq_true, Option.isSome_iff_exists] at he
      obtain ⟨⟨p, hp⟩, ⟨eo, heo⟩⟩ := he
      simp only [entryPdfPath, Option.bind_eq_some] at hp
      obtain ⟨v, hv, hvs⟩ := hp
      simp only [entryExpected] at heo
      cases hl : fsLookup fs p with
      | none => simpa [processExamples, hv, hvs, hl] using ihr
      | some data => simp [processExamples, hv, hvs, hl, heo, ihr]
    | null => simp [wfEntry, entryPdfPath] at he
    | bool b => simp [wfEntry, entryPdfPath] at he
    | num n => simp [wfEntry, entryPdfPath] at he
    | str s => simp [wfEntry, entryPdfPath] at he
    | arr xs => simp [wfEntry, entryPdfPath] at he

/-- A `json` module whose decode always fails (an arbitrary concrete
instantiation for evaluation). -/
def pjNoLoad : PyJson := ⟨fun _ => none, fun _ => ""⟩

/-- A remote call that always fails. -/
def apiBoom : Api := fun _ => .error (.apiError "boom")

/-- A remote call that succeeds with a body that is not valid JSON. -/
def apiNoBody : Api := fun _ => .ok ⟨none⟩

/-- A configuration without a few-shot examples path. -/
def cfgNoPath : PDFExtractor := ⟨none⟩

/-- Discriminator for the spec's `ExtractionError` wrapper. -/
def isExtractionError : PyError → Bool
  | .extractionError _ => true
  | _ => false

/-- C1 (counterexample): with no few-shot path configured and a remote call
failing with `apiError "boom"`, the pipeline fails, yet
`extract_data_from_pdf` surfaces the raw `apiError` itself — which is not an
`ExtractionError` wrapping the cause — refuting the claim as stated. -/
theorem C1_counterexample :
    extract_data_from_pdf pjNoLoad apiBoom cfgNoPath [] [] =
      .error (.apiError "boom") ∧
    isExtractionError (PyError.apiError "boom") = false :=
  ⟨rfl, rfl⟩

/-- C1 (amended): when the extraction pipeline fails with an exception,
`extract_data_from_pdf` fails with exactly the underlying exception, unchanged
(its `except` clause logs and bare-raises, wrapping nothing): it errors with
`e` precisely when the few-shot load errored with `e` or the remote call
errored with `e`; in particular a response that merely fails JSON or schema
parsing raises nothing at all. -/
theorem C1_errors_propagate_raw (pj : PyJson) (api : Api) (cfg : PDFExtractor)
    (fs : Fs) (pdf_data : Bytes) (e : PyError) :
    extract_data_from_pdf pj api cfg fs pdf_data = .error e ↔
      (create_few_shot_examples pj cfg fs = .error e ∨
        ∃ few, create_few_shot_examples pj cfg fs = .ok few ∧
          api (mkContents few pdf_data) = .error e) := by
  unfold extract_data_from_pdf
  cases hc : create_few_shot_examples pj cfg fs with
  | error e2 => simp [hc]
  | ok few =>
    cases ha : api (mkContents few pdf_data) with
    | error e2 => simp [ha]
    | ok response => simp [ha]

/-- C1 (witness): the amended propagation theorem evaluated at a concrete
failing remote call. -/
theorem C1_witness :
    extract_data_from_pdf pjNoLoad apiBoom cfgNoPath [] [] =
      .error (.apiError "boom") :=
  (C1_errors_propagate_raw pjNoLoad apiBoom cfgNoPath [] []
      (.apiError "boom")).mpr (Or.inr ⟨[], rfl, rfl⟩)

/-- C2: with exactly one valid few-shot example, the few-shot context is the
example's three segments, the assembled request content is exactly the six
segments in order (system instruction, example instruction, example PDF part,
indented expected output, target PDF part, closing instruction), and in
general the assembled content has length `2 + 3*n + 1` for `n` valid
examples. -/
theorem C2_request_content_layout (pj : PyJson) (cfg : PDFExtractor) (fs : Fs)
    (pdf_data : Bytes) (fp : String) (content : Bytes) (e : Json) (p : String)
    (edata : Bytes) (eo : Json) (es : List Json) (few : List Segment)
    (hpath : cfg.few_shot_examples_path = some fp)
    (hfile : fsLookup fs fp = some content)
    (hload : pj.loads content = some (.arr [e]))
    (hp : entryPdfPath e = some p)
    (heo : entryExpected e = some eo)
    (hpdf : fsLookup fs p = some edata)
    (hwf : ∀ x ∈ es, wfEntry x = true)
    (hfew : processExamples pj fs es = .ok few) :
    create_few_shot_examples pj cfg fs =
      .ok [Segment.text few_shot_instruction, Segment.filePart edata pdfMime,
           Segment.text (pj.dumpsIndent2 eo)] ∧
    mkContents [Segment.text few_shot_instruction, Segment.filePart edata pdfMime,
        Segment.text (pj.dumpsIndent2 eo)] pdf_data =
      [Segment.text system_prompt, Segment.text few_shot_instruction,
       Segment.filePart edata pdfMime, Segment.text (pj.dumpsIndent2 eo),
       Segment.filePart pdf_data pdfMime, Segment.text main_prompt] ∧
    (mkContents few pdf_data).length = 2 + 3 * countValid fs es + 1 := by
  refine ⟨?_, rfl, ?_⟩
  · have hwf1 : ∀ x ∈ [e], wfEntry x = true := by
      intro x hx
      simp only [List.mem_singleton] at hx
      subst hx
      simp [wfEntry, hp, heo]
    have h1 := processExamples_wf pj fs [e] hwf1
    have h2 : expectedTriples pj fs [e] =
        [Segment.text few_shot_instruction, Segment.filePart edata pdfMime,
         Segment.text (pj.dumpsIndent2 eo)] := by
      simp [expectedTriples, hp, heo, hpdf]
    rw [h2] at h1
    simp [create_few_shot_examples, hpath, hfile, hload, h1]
  · have h3 := processExamples_wf pj fs es hwf
    rw [hfew] at h3
    have h4 : few = expectedTriples pj fs es := by
      simpa using h3
    have h5 := expectedTriples_length pj fs es hwf
    simp only [mkContents, List.length_cons, List.length_append,
      List.length_nil, h4, h5]
    omega

/-- One concrete well-formed example entry. -/
def exEntry : Json :=
  Json.obj [("pdf_path", Json.str "ex.pdf"), ("expected_output", Json.null)]

/-- A `json` module decoding everything to a one-entry example list. -/
def pjOneExample : PyJson :=
  ⟨fun _ => some (Json.arr [exEntry]), fun _ => "EO"⟩

/-- A filesystem containing the examples file and the example PDF. -/
def fsOneExample : Fs := [("examples.json", [0]), ("ex.pdf", [1, 2])]

/-- A configuration pointing at the examples file. -/
def cfgOneExample : PDFExtractor := ⟨some "examples.json"⟩

/-- C2 (witness): the layout theorem evaluated at a concrete one-example
configuration. -/
theorem C2_witness :
    create_few_shot_examples pjOneExample cfgOneExample fsOneExample =
      .ok [Segment.text few_shot_instruction, Segment.filePart [1, 2] pdfMime,
           Segment.text (pjOneExample.dumpsIndent2 Json.null)] ∧
    mkContents [Segment.text few_shot_instruction, Segment.filePart [1, 2] pdfMime,
        Segment.text (pjOneExample.dumpsIndent2 Json.null)] [9] =
      [Segment.text system_prompt, Segment.text few_shot_instruction,
       Segment.filePart [1, 2] pdfMime,
       Segment.text (pjOneExample.dumpsIndent2 Json.null),
       Segment.filePart [9] pdfMime, Segment.text main_prompt] ∧
    (mkContents [Segment.text few_shot_instruction, Segment.filePart [1, 2] pdfMime,
        Segment.text (pjOneExample.dumpsIndent2 Json.null)] [9]).length =
      2 + 3 * countValid fsOneExample [exEntry] + 1 :=
  C2_request_content_layout pjOneExample cfgOneExample fsOneExample [9]
    "examples.json" [0] exEntry "ex.pdf" [1, 2] Json.null [exEntry]
    [Segment.text few_shot_instruction, Segment.filePart [1, 2] pdfMime,
     Segment.text (pjOneExample.dumpsIndent2 Json.null)]
    rfl rfl rfl rfl rfl rfl
    (by
      intro x hx
      simp only [List.mem_singleton] at hx
      subst hx
      rfl)
    rfl

/-- C3: when the remote call succeeds but the response body does not parse
into the schema, `response.parsed` is `none` and `extract_data_from_pdf`
returns it unchecked, without raising; the same `none` flows out of
`extract_data_from_file` and `extract_data_from_uploaded_file`. -/
theorem C3_parsed_none_flows_out (pj : PyJson) (api : Api) (cfg : PDFExtractor)
    (fs : Fs) (pdf_data : Bytes) (few : List Segment) (r : ApiResponse)
    (path tmp : String)
    (h1 : create_few_shot_examples pj cfg fs = .ok few)
    (h2 : api (mkContents few pdf_data) = .ok r)
    (h3 : r.parsed = none)
    (hpath : fsLookup fs path = some pdf_data)
    (htmp : tmp ∉ referencedPaths pj cfg fs) :
    extract_data_from_pdf pj api cfg fs pdf_data = .ok none ∧
    extract_data_from_file pj api cfg fs path = .ok none ∧
    (extract_data_from_uploaded_file pj api cfg fs pdf_data tmp).1 = .ok none := by
  have hpdf : extract_data_from_pdf pj api cfg fs pdf_data = .ok none := by
    simp [extract_data_from_pdf, h1, h2, h3]
  refine ⟨hpdf, ?_, ?_⟩
  · simp [extract_data_from_file, hpath, hpdf]
  · have hins := create_few_shot_examples_fsInsert pj cfg fs tmp pdf_data htmp
    have hlt : fsLookup (fsInsert fs tmp pdf_data) tmp = some pdf_data := by
      rw [fsLookup_fsInsert]
      simp
    simp [extract_data_from_uploaded_file, extract_data_from_file, hlt,
      extract_data_from_pdf, hins, h1, h2, h3]

/-- C3 (witness): a concrete unparseable response flowing out of all three
entry points as `none`. -/
theorem C3_witness :
    extract_data_from_pdf pjNoLoad apiNoBody cfgNoPath [("t.pdf", [7])] [7] =
      .ok none ∧
    extract_data_from_file pjNoLoad apiNoBody cfgNoPath [("t.pdf", [7])] "t.pdf" =
      .ok none ∧
    (extract_data_from_uploaded_file pjNoLoad apiNoBody cfgNoPath
        [("t.pdf", [7])] [7] "tmp123").1 = .ok none :=
  C3_parsed_none_flows_out pjNoLoad apiNoBody cfgNoPath [("t.pdf", [7])] [7]
    [] ⟨none⟩ "t.pdf" "tmp123" rfl rfl rfl rfl (by simp [referencedPaths, cfgNoPath])

/-- C4: on a decoded examples list of well-formed entries,
`create_few_shot_examples` succeeds with exactly the spec-side triples — one
instruction + PDF-bytes + expected-output triple per entry whose PDF exists,
in file order, entries with a missing PDF skipped (warned) while all others
are included — and the result has three segments per included entry. -/
theorem C4_one_triple_per_existing_entry (pj : PyJson) (cfg : PDFExtractor)
    (fs : Fs) (fp : String) (content : Bytes) (es : List Json)
    (hpath : cfg.few_shot_examples_path = some fp)
    (hfile : fsLookup fs fp = some content)
    (hload : pj.loads content = some (.arr es))
    (hwf : ∀ x ∈ es, wfEntry x = true) :
    create_few_shot_examples pj cfg fs = .ok (expectedTriples pj fs es) ∧
    (expectedTriples pj fs es).length = 3 * countValid fs es := by
  refine ⟨?_, expectedTriples_length pj fs es hwf⟩
  have h1 := processExamples_wf pj fs es hwf
  simp [create_few_shot_examples, hpath, hfile, hload, h1]

/-- A well-formed example entry whose PDF does not exist on `fsOneExample`. -/
def exEntryMissing : Json :=
  Json.obj [("pdf_path", Json.str "gone.pdf"), ("expected_output", Json.bool true)]

/-- A `json` module decoding everything to a two-entry example list whose
second entry references a missing PDF. -/
def pjTwoExamples : PyJson :=
  ⟨fun _ => some (Json.arr [exEntry, exEntryMissing]), fun _ => "EO2"⟩

/-- C4 (witness): a two-entry file on a filesystem missing the second PDF —
the load still succeeds, producing the triples of the first entry only. -/
theorem C4_witness :
    create_few_shot_examples pjTwoExamples cfgOneExample fsOneExample =
      .ok (expectedTriples pjTwoExamples fsOneExample [exEntry, exEntryMissing]) ∧
    (expectedTriples pjTwoExamples fsOneExample [exEntry, exEntryMissing]).length =
      3 * countValid fsOneExample [exEntry, exEntryMissing] :=
  C4_one_triple_per_existing_entry pjTwoExamples cfgOneExample fsOneExample
    "examples.json" [0] [exEntry, exEntryMissing] rfl rfl rfl
    (by
      intro x hx
      simp only [List.mem_cons, List.mem_singleton] at hx
      cases hx with
      | inl h => subst h; rfl
      | inr h => simp only [List.mem_singleton, List.not_mem_nil, or_false] at h; subst h; rfl)

/-- C5: `extract_data_from_uploaded_file` has no distinct behavior from
`extract_data_from_pdf` on the uploaded bytes: provided the fresh temporary
path is none of the paths the few-shot load consults, the result (success or
failure alike) is identical, despite the round trip through a temporary file
and `extract_data_from_file`. -/
theorem C5_uploaded_equiv_bytes (pj : PyJson) (api : Api) (cfg : PDFExtractor)
    (fs : Fs) (uploaded : Bytes) (tmp : String)
    (htmp : tmp ∉ referencedPaths pj cfg fs) :
    (extract_data_from_uploaded_file pj api cfg fs uploaded tmp).1 =
      extract_data_from_pdf pj api cfg fs uploaded := by
  have hins := create_few_shot_examples_fsInsert pj cfg fs tmp uploaded htmp
  have hlt : fsLookup (fsInsert fs tmp uploaded) tmp = some uploaded := by
    rw [fsLookup_fsInsert]
    simp
  simp [extract_data_from_uploaded_file, extract_data_from_file, hlt,
    extract_data_from_pdf, hins]

/-- C5 (witness): the equivalence evaluated at a concrete one-example
configuration and a fresh temporary path. -/
theorem C5_witness :
    (extract_data_from_uploaded_file pjOneExample apiNoBody cfgOneExample
        fsOneExample [5] "tmpXYZ").1 =
      extract_data_from_pdf pjOneExample apiNoBody cfgOneExample fsOneExample [5] :=
  C5_uploaded_equiv_bytes pjOneExample apiNoBody cfgOneExample fsOneExample [5]
    "tmpXYZ" (by decide)

/-- C6: the temporary file staged by `extract_data_from_uploaded_file` is
deleted before the call returns on every exit path (the remote call is
universally quantified, so failing calls — whose exception propagates — are
covered as well as successful ones): the final filesystem has no file at the
temporary path, and when that path was fresh, the filesystem is restored
exactly. -/
theorem C6_temp_file_deleted (pj : PyJson) (api : Api) (cfg : PDFExtractor)
    (fs : Fs) (uploaded : Bytes) (tmp q : String)
    (hfresh : fsLookup fs tmp = none) :
    fsLookup (extract_data_from_uploaded_file pj api cfg fs uploaded tmp).2 tmp =
      none ∧
    fsLookup (extract_data_from_uploaded_file pj api cfg fs uploaded tmp).2 q =
      fsLookup fs q := by
  constructor
  · simp [extract_data_from_uploaded_file, fsLookup_fsErase]
  · rw [show (extract_data_from_uploaded_file pj api cfg fs uploaded tmp).2 =
        fsErase (fsInsert fs tmp uploaded) tmp from rfl]
    rw [fsLookup_fsErase]
    by_cases hq : q = tmp
    · subst hq
      simp [hfresh]
    · rw [fsLookup_fsInsert]
      have : ¬ tmp = q := fun hc => hq hc.symm
      simp [hq, this]

/-- C6 (witness): deletion observed on the failure path — the remote call
raises, yet the temporary file is gone and the filesystem is restored. -/
theorem C6_witness :
    fsLookup (extract_data_from_uploaded_file pjNoLoad apiBoom cfgNoPath
        [("keep.pdf", [4])] [8] "tmpQ").2 "tmpQ" = none ∧
    fsLookup (extract_data_from_uploaded_file pjNoLoad apiBoom cfgNoPath
        [("keep.pdf", [4])] [8] "tmpQ").2 "keep.pdf" =
      fsLookup [("keep.pdf", [4])] "keep.pdf" :=
  C6_temp_file_deleted pjNoLoad apiBoom cfgNoPath [("keep.pdf", [4])] [8]
    "tmpQ" "keep.pdf" rfl

/-- C7: on a well-formed API response conforming to the schema,
`extract_data_from_pdf` returns a record whose nine fields exactly equal the
response JSON's values, with `vehicle_year` coerced to an integer and all
other fields taken as strings. -/
theorem C7_fields_match_response (pj : PyJson) (api : Api) (cfg : PDFExtractor)
    (fs : Fs) (pdf_data : Bytes) (few : List Segment)
    (fields : List (String × Json)) (ts tt vin : String) (yv : Json) (y : Int)
    (vmake vmodel tn ro fr : String)
    (h1 : create_few_shot_examples pj cfg fs = .ok few)
    (h2 : api (mkContents few pdf_data) = .ok ⟨some (.obj fields)⟩)
    (hts : objGet fields "title_state" = some (.str ts))
    (htt : objGet fields "title_type" = some (.str tt))
    (hvin : objGet fields "vehicle_vin" = some (.str vin))
    (hy : objGet fields "vehicle_year" = some yv)
    (hyc : asInt yv = some y)
    (hmk : objGet fields "vehicle_make" = some (.str vmake))
    (hmd : objGet fields "vehicle_model" = some (.str vmodel))
    (htn : objGet fields "title_number" = some (.str tn))
    (hro : objGet fields "vehicle_registered_owner" = some (.str ro))
    (hfr : objGet fields "first_reassignment" = some (.str fr)) :
    extract_data_from_pdf pj api cfg fs pdf_data =
      .ok (some ⟨ts, tt, vin, y, vmake, vmodel, tn, ro, fr⟩) := by
  have hparse : parseVehicleTitle (Json.obj fields) =
      some ⟨ts, tt, vin, y, vmake, vmodel, tn, ro, fr⟩ := by
    simp [parseVehicleTitle, hts, htt, hvin, hy, hyc, hmk, hmd, htn, hro, hfr,
      asStr]
  simp [extract_data_from_pdf, h1, h2, ApiResponse.parsed, hparse]

/-- A concrete schema-conforming response body. -/
def vtFields : List (String × Json) :=
  [("title_state", .str "CA"), ("title_type", .str "Salvage"),
   ("vehicle_vin", .str "VIN123"), ("vehicle_year", .num 2004),
   ("vehicle_make", .str "Toyota"), ("vehicle_model", .str "Corolla"),
   ("title_number", .str "T-99"), ("vehicle_registered_owner", .str "Jax Auto"),
   ("first_reassignment", .str "Rex LLC")]

/-- A remote call answering with the concrete schema-conforming body. -/
def apiVt : Api := fun _ => .ok ⟨some (Json.obj vtFields)⟩

/-- C7 (witness): the field-exactness theorem evaluated on the concrete
response. -/
theorem C7_witness :
    extract_data_from_pdf pjNoLoad apiVt cfgNoPath [] [3] =
      .ok (some ⟨"CA", "Salvage", "VIN123", 2004, "Toyota", "Corolla", "T-99",
        "Jax Auto", "Rex LLC"⟩) :=
  C7_fields_match_response pjNoLoad apiVt cfgNoPath [] [3] [] vtFields
    "CA" "Salvage" "VIN123" (Json.num 2004) 2004 "Toyota" "Corolla" "T-99"
    "Jax Auto" "Rex LLC" rfl rfl rfl rfl rfl rfl rfl rfl rfl rfl rfl rfl

/-- C8: when the examples file exists but its top-level content is not valid
JSON, the entire few-shot load fails with the decode error, which aborts the
enclosing extraction call (whatever the remote call would have answered) —
in contrast to a missing individual example PDF, which C4 shows is merely
skipped. -/
theorem C8_malformed_toplevel_aborts (pj : PyJson) (api : Api)
    (cfg : PDFExtractor) (fs : Fs) (fp : String) (content pdf_data : Bytes)
    (hpath : cfg.few_shot_examples_path = some fp)
    (hfile : fsLookup fs fp = some content)
    (hload : pj.loads content = none) :
    create_few_shot_examples pj cfg fs = .error .jsonDecodeError ∧
    extract_data_from_pdf pj api cfg fs pdf_data = .error .jsonDecodeError := by
  have h1 : create_few_shot_examples pj cfg fs = .error .jsonDecodeError := by
    simp [create_few_shot_examples, hpath, hfile, hload]
  exact ⟨h1, by simp [extract_data_from_pdf, h1]⟩

/-- C8 (witness): a concrete undecodable examples file aborting an extraction
whose remote call would have succeeded. -/
theorem C8_witness :
    create_few_shot_examples pjNoLoad cfgOneExample fsOneExample =
      .error .jsonDecodeError ∧
    extract_data_from_pdf pjNoLoad apiNoBody cfgOneExample fsOneExample [6] =
      .error .jsonDecodeError :=
  C8_malformed_toplevel_aborts pjNoLoad apiNoBody cfgOneExample fsOneExample
    "examples.json" [0] [6] rfl rfl rfl

/-- C9: `extract_data_from_file` on a path naming no readable file raises
`FileNotFoundError` before any API call is attempted — the result is the same
for every remote call whatsoever — and on a readable file it reads the bytes
fully and then delegates to `extract_data_from_pdf` on exactly those bytes. -/
theorem C9_read_before_api (pj : PyJson) (cfg : PDFExtractor) (api api2 : Api)
    (fs : Fs) (p : String) (fs2 : Fs) (p2 : String) (data2 : Bytes)
    (hmiss : fsLookup fs p = none)
    (hhit : fsLookup fs2 p2 = some data2) :
    extract_data_from_file pj api cfg fs p = .error (.fileNotFound p) ∧
    extract_data_from_file pj api cfg fs p =
      extract_data_from_file pj api2 cfg fs p ∧
    extract_data_from_file pj api cfg fs2 p2 =
      extract_data_from_pdf pj api cfg fs2 data2 := by
  refine ⟨?_, ?_, ?_⟩
  · simp [extract_data_from_file, hmiss]
  · simp [extract_data_from_file, hmiss]
  · simp [extract_data_from_file, hhit]

/-- C9 (witness): the theorem evaluated on a missing path (with two different
remote calls) and on an existing file. -/
theorem C9_witness :
    extract_data_from_file pjNoLoad apiBoom cfgNoPath [] "nope.pdf" =
      .error (.fileNotFound "nope.pdf") ∧
    extract_data_from_file pjNoLoad apiBoom cfgNoPath [] "nope.pdf" =
      extract_data_from_file pjNoLoad apiNoBody cfgNoPath [] "nope.pdf" ∧
    extract_data_from_file pjNoLoad apiBoom cfgNoPath [("a.pdf", [1])] "a.pdf" =
      extract_data_from_pdf pjNoLoad apiBoom cfgNoPath [("a.pdf", [1])] [1] :=
  C9_read_before_api pjNoLoad cfgNoPath apiBoom apiNoBody [] "nope.pdf"
    [("a.pdf", [1])] "a.pdf" [1] rfl rfl

/-- C10: a decoded entry object lacking `pdf_path` raises
`KeyError "pdf_path"`, and an entry whose PDF exists but which lacks
`expected_output` raises `KeyError "expected_output"`; either error aborts
the entire extraction call (after any well-formed earlier entries), unlike a
missing example PDF, which is skipped. -/
theorem C10_malformed_entry_aborts (pj : PyJson) (api : Api)
    (cfg : PDFExtractor) (fs : Fs) (fp : String) (content : Bytes)
    (pre rest : List Json) (fields : List (String × Json)) (pdf_data : Bytes)
    (cfg2 : PDFExtractor) (fs2 : Fs) (fp2 : String) (content2 : Bytes)
    (pre2 rest2 : List Json) (fields2 : List (String × Json)) (p2 : String)
    (data2 : Bytes)
    (hpath : cfg.few_shot_examples_path = some fp)
    (hfile : fsLookup fs fp = some content)
    (hload : pj.loads content = some (.arr (pre ++ Json.obj fields :: rest)))
    (hwf : ∀ x ∈ pre, wfEntry x = true)
    (hmiss : objGet fields "pdf_path" = none)
    (hpath2 : cfg2.few_shot_examples_path = some fp2)
    (hfile2 : fsLookup fs2 fp2 = some content2)
    (hload2 : pj.loads content2 = some (.arr (pre2 ++ Json.obj fields2 :: rest2)))
    (hwf2 : ∀ x ∈ pre2, wfEntry x = true)
    (hp2 : objGet fields2 "pdf_path" = some (Json.str p2))
    (hpdf2 : fsLookup fs2 p2 = some data2)
    (hmiss2 : objGet fields2 "expected_output" = none) :
    (create_few_shot_examples pj cfg fs = .error (.keyError "pdf_path") ∧
     extract_data_from_pdf pj api cfg fs pdf_data =
       .error (.keyError "pdf_path")) ∧
    (create_few_shot_examples pj cfg2 fs2 = .error (.keyError "expected_output") ∧
     extract_data_from_pdf pj api cfg2 fs2 pdf_data =
       .error (.keyError "expected_output")) := by
  have ha : processExamples pj fs (Json.obj fields :: rest) =
      .error (.keyError "pdf_path") := by
    simp [processExamples, hmiss]
  have hA : create_few_shot_examples pj cfg fs = .error (.keyError "pdf_path") := by
    have := processExamples_append_error pj fs pre (Json.obj fields :: rest)
      (.keyError "pdf_path") hwf ha
    simp [create_few_shot_examples, hpath, hfile, hload, this]
  have hb : processExamples pj fs2 (Json.obj fields2 :: rest2) =
      .error (.keyError "expected_output") := by
    simp [processExamples, hp2, asStr, hpdf2, hmiss2]
  have hB : create_few_shot_examples pj cfg2 fs2 =
      .error (.keyError "expected_output") := by
    have := processExamples_append_error pj fs2 pre2 (Json.obj fields2 :: rest2)
      (.keyError "expected_output") hwf2 hb
    simp [create_few_shot_examples, hpath2, hfile2, hload2, this]
  exact ⟨⟨hA, by simp [extract_data_from_pdf, hA]⟩,
         ⟨hB, by simp [extract_data_from_pdf, hB]⟩⟩

/-- An entry object lacking `pdf_path`. -/
def entryNoPath : Json := Json.obj [("expected_output", Json.null)]

/-- An entry object with an existing PDF but no `expected_output`. -/
def entryNoExpected : Json := Json.obj [("pdf_path", Json.str "ex.pdf")]

/-- A `json` module producing the two malformed-entry files, dispatching on
the file contents. -/
def pjBad : PyJson :=
  ⟨fun bs => if bs = [0] then some (Json.arr [exEntry, entryNoPath])
             else some (Json.arr [entryNoExpected]),
   fun _ => "X"⟩

/-- A filesystem for the second malformed-entry scenario. -/
def fsBad2 : Fs := [("examples2.json", [1]), ("ex.pdf", [9])]

/-- C10 (witness): both malformed-entry scenarios evaluated concretely, each
preceded by a well-formed entry respectively empty prefix. -/
theorem C10_witness :
    (create_few_shot_examples pjBad cfgOneExample fsOneExample =
       .error (.keyError "pdf_path") ∧
     extract_data_from_pdf pjBad apiNoBody cfgOneExample fsOneExample [2] =
       .error (.keyError "pdf_path")) ∧
    (create_few_shot_examples pjBad ⟨some "examples2.json"⟩ fsBad2 =
       .error (.keyError "expected_output") ∧
     extract_data_from_pdf pjBad apiNoBody ⟨some "examples2.json"⟩ fsBad2 [2] =
       .error (.keyError "expected_output")) :=
  C10_malformed_entry_aborts pjBad apiNoBody cfgOneExample fsOneExample
    "examples.json" [0] [exEntry] [] [("expected_output", Json.null)] [2]
    ⟨some "examples2.json"⟩ fsBad2 "examples2.json" [1] [] []
    [("pdf_path", Json.str "ex.pdf")] "ex.pdf" [9]
    rfl rfl rfl
    (by
      intro x hx
      simp only [List.mem_singleton] at hx
      subst hx
      rfl)
    rfl rfl rfl rfl
    (by intro x hx; simp at hx)
    rfl rfl rfl

end AecPoc
